import Mathlib

/-!
Verification development for the arbok tunnel server.

The Go sources are shallowly embedded: Go maps become association lists
with overwrite-on-insert, `net.IP` values become the 32-bit natural they
denote (the code only ever handles canonical dotted-quad IPv4 addresses,
for which `ip.String()` round-trips), wall-clock times become naturals,
and the two fallible collaborators of tunnel creation (the key generator,
whose randomness source can fail, and the WireGuard device's `AddPeer`)
become explicit inputs so that every failure path of the code is a value
of the model.
-/

namespace Arbok

/-- Association-list model of a Go `map` read: the value bound to `k`,
if any.  Lists built with `mapInsert` bind each key at most once. -/
def mapLookup {α β : Type} [DecidableEq α] (k : α) (m : List (α × β)) : Option β :=
  (m.find? (fun e => e.1 = k)).map (fun e => e.2)

/-- Model of Go `delete(m, k)`: drop every binding of `k`. -/
def mapErase {α β : Type} [DecidableEq α] (k : α) (m : List (α × β)) : List (α × β) :=
  m.filter (fun e => e.1 ≠ k)

/-- Model of Go `m[k] = v`: overwrite any previous binding of `k`. -/
def mapInsert {α β : Type} [DecidableEq α] (k : α) (v : β) (m : List (α × β)) :
    List (α × β) :=
  (k, v) :: mapErase k m

theorem mapLookup_insert_self {α β : Type} [DecidableEq α] (k : α) (v : β)
    (m : List (α × β)) : mapLookup k (mapInsert k v m) = some v := by
  simp [mapLookup, mapInsert, List.find?]

theorem mapLookup_erase_self {α β : Type} [DecidableEq α] (k : α)
    (m : List (α × β)) : mapLookup k (mapErase k m) = none := by
  induction m with
  | nil => rfl
  | cons e m ih =>
    by_cases h : e.1 = k
    · rw [show mapErase k (e :: m) = mapErase k m by simp [mapErase, h]]
      exact ih
    · rw [show mapErase k (e :: m) = e :: mapErase k m by simp [mapErase, h]]
      rw [show mapLookup k (e :: mapErase k m) = mapLookup k (mapErase k m) by
            simp [mapLookup, List.find?, h]]
      exact ih

theorem mem_of_mem_mapErase {α β : Type} [DecidableEq α] {k : α}
    {m : List (α × β)} {e : α × β} (h : e ∈ mapErase k m) : e ∈ m :=
  List.mem_of_mem_filter h

theorem fst_ne_of_mem_mapErase {α β : Type} [DecidableEq α] {k : α}
    {m : List (α × β)} {e : α × β} (h : e ∈ mapErase k m) : e.1 ≠ k := by
  have := List.of_mem_filter h
  simpa using this

theorem mapErase_insert_cancel {α β : Type} [DecidableEq α] (k : α) (v : β)
    (m : List (α × β)) : mapErase k (mapInsert k v m) = mapErase k m := by
  simp [mapInsert, mapErase, List.filter_filter]

theorem mapErase_eq_self_of_absent {α β : Type} [DecidableEq α] {k : α}
    {m : List (α × β)} (h : ∀ e ∈ m, e.1 ≠ k) : mapErase k m = m :=
  List.filter_eq_self.mpr (fun e he => by simpa using h e he)

/-! ## IPv4 addresses and the address pool (internal/registry/ippool.go)

An IPv4 address is its 32-bit value as a natural number.  The Go code
stores `net.IP` byte slices and keys the allocation map by `ip.String()`;
on the canonical 4-byte addresses the pool manipulates, the string form
is in bijection with the 32-bit value, so keying by the value is faithful. -/

/-- The 32-bit value of the dotted quad `a.b.c.d`. -/
def octetsToNat (a b c d : Nat) : Nat := ((a * 256 + b) * 256 + c) * 256 + d

/-- Model of `ip[len(ip)-1] = byte(i)`: replace the final octet. -/
def setLastOctet (ip i : Nat) : Nat := ip / 256 * 256 + i

/-- Model of `ip.Mask(mask)` for a `/n` mask: clear the low `32 - n` bits. -/
def maskNet (ip n : Nat) : Nat := ip / 2 ^ (32 - n) * 2 ^ (32 - n)

/-- Model of `(*net.IPNet).Contains` for the network `network/n`
(with `network` already masked, as `net.ParseCIDR` guarantees). -/
def cidrContains (network n ip : Nat) : Prop :=
  ip / 2 ^ (32 - n) = network / 2 ^ (32 - n)

instance (network n ip : Nat) : Decidable (cidrContains network n ip) := by
  unfold cidrContains; infer_instance

/-- Dotted-quad rendering of a 32-bit value (model of `ip.String()`). -/
def natToIPString (ip : Nat) : String :=
  toString (ip / 2 ^ 24 % 256) ++ "." ++ toString (ip / 2 ^ 16 % 256) ++ "." ++
    toString (ip / 2 ^ 8 % 256) ++ "." ++ toString (ip % 256)

/-- Split a character list at every occurrence of `c`
(model of `strings.Split` with a one-character separator). -/
def splitOnChar (c : Char) : List Char → List (List Char)
  | [] => [[]]
  | x :: xs =>
    if x = c then [] :: splitOnChar c xs
    else
      match splitOnChar c xs with
      | h :: t => (x :: h) :: t
      | [] => [[x]]

/-- Accumulate decimal digits; any non-digit character fails
(model of Go's `dtoi` with full consumption required). -/
def parseDigitsAux : List Char → Nat → Option Nat
  | [], acc => some acc
  | c :: cs, acc =>
    if '0' ≤ c ∧ c ≤ '9' then parseDigitsAux cs (acc * 10 + (c.toNat - 48))
    else none

/-- A non-empty all-decimal-digit string's value. -/
def parseDigits : List Char → Option Nat
  | [] => none
  | l => parseDigitsAux l 0

/-- One decimal field of a dotted quad, as Go (1.17+) `net.ParseIP`
accepts it: decimal digits only, value at most 255, no leading zero. -/
def parseOctet (l : List Char) : Option Nat :=
  match parseDigits l with
  | none => none
  | some v =>
    if v ≤ 255 ∧ (l.length = 1 ∨ l.head? ≠ some '0') then some v else none

/-- Model of `net.ParseIP` restricted to the IPv4 dotted-quad form the
program configures (the spec's CIDRs are IPv4). -/
def parseIPv4 (l : List Char) : Option Nat :=
  match splitOnChar '.' l with
  | [a, b, c, d] =>
    match parseOctet a, parseOctet b, parseOctet c, parseOctet d with
    | some x, some y, some z, some w => some (octetsToNat x y z w)
    | _, _, _, _ => none
  | _ => none

/-- The `/n` part of a CIDR: decimal digits, at most `8 * 4 = 32`
(Go's `dtoi` accepts leading zeroes here). -/
def parseMaskBits (l : List Char) : Option Nat :=
  match parseDigits l with
  | none => none
  | some n => if n ≤ 32 then some n else none

/-- Model of `net.ParseCIDR` on IPv4 inputs: the masked network address
and the mask width. -/
def parseCIDR (s : String) : Option (Nat × Nat) :=
  match splitOnChar '/' s.data with
  | [ipStr, maskStr] =>
    match parseIPv4 ipStr, parseMaskBits maskStr with
    | some ip, some n => some (maskNet ip n, n)
    | _, _ => none
  | _ => none

/-- State of `IPPool` (ippool.go): the network, the set of allocated
addresses, and the cached `available` counter. -/
structure IPPool where
  network : Nat
  maskBits : Nat
  allocated : List Nat
  available : Nat
deriving DecidableEq

/-- `NewIPPool` (ippool.go lines 18-36): parse the CIDR, subtract network
and broadcast when more than two addresses exist, and reserve one more
address for the server.  Note: no width check is performed — any
well-formed CIDR constructs. -/
def newIPPool (cidr : String) : Option IPPool :=
  (parseCIDR cidr).map (fun p =>
    let total := 2 ^ (32 - p.2)
    let total := if total > 2 then total - 2 else total
    { network := p.1, maskBits := p.2, allocated := [], available := total - 1 })

/-- The scan loop of `Allocate` (ippool.go lines 52-65): try final octets
in order, stop at the first candidate outside the network, skip allocated
ones. -/
def allocFind (p : IPPool) : List Nat → Option Nat
  | [] => none
  | i :: rest =>
    let ip := setLastOctet p.network i
    if ¬ cidrContains p.network p.maskBits ip then none
    else if ip ∈ p.allocated then allocFind p rest
    else some ip

/-- `Allocate` (ippool.go lines 39-68): fail when the counter is zero,
otherwise scan final octets 2 through 255. -/
def IPPool.allocate (p : IPPool) : Option (Nat × IPPool) :=
  if p.available = 0 then none
  else
    match allocFind p (List.range' 2 254) with
    | none => none
    | some ip =>
      some (ip, { p with allocated := ip :: p.allocated, available := p.available - 1 })

/-- `Release` (ippool.go lines 71-83): error when the address is not
currently allocated. -/
def IPPool.release (p : IPPool) (ip : Nat) : Option IPPool :=
  if ip ∈ p.allocated then
    some { p with allocated := p.allocated.filter (fun x => x ≠ ip),
                  available := p.available + 1 }
  else none

/-- A release whose error the caller discards, as registry.go does at
lines 85 and 162 (`ReleaseString` re-parses the stored dotted quad,
which round-trips to the same 32-bit value). -/
def IPPool.releaseD (p : IPPool) (ip : Nat) : IPPool :=
  (p.release ip).getD p


/-! ## Tunnel records (tunnel.Info) and the registry
(internal/registry/registry.go)

Wall-clock instants are naturals.  `uuid.New()`, `keyGen.Generate()` and
`nameGen.Generate()` are outputs of collaborators outside the registry's
control; their results for one `CreateTunnel` call are bundled into
`GenInputs`, with the key generator's possible failure as an `Option`. -/

/-- `tunnel.Info` (the tunnel record).  `allowedIP` holds the 32-bit
value of the dotted quad the Go struct stores as a string. -/
structure Info where
  id : String
  subdomain : String
  port : Nat
  publicKey : String
  privateKey : String
  allowedIP : Nat
  createdAt : Nat
  expiresAt : Nat
  lastSeen : Nat
  bytesIn : Nat
  bytesOut : Nat
deriving DecidableEq

/-- `Info.IsExpired`: `time.Now().After(t.ExpiresAt)`, a strict
comparison. -/
def Info.isExpired (t : Info) (now : Nat) : Bool := decide (now > t.expiresAt)

/-- Process-wide metrics counters touched by the registry. -/
structure Metrics where
  tunnelsCreated : Nat
  tunnelsDeleted : Nat
  tunnelsExpired : Nat
  tunnelsActive : Int
  ipPoolExhausted : Nat
deriving DecidableEq

def Metrics.init : Metrics :=
  { tunnelsCreated := 0, tunnelsDeleted := 0, tunnelsExpired := 0,
    tunnelsActive := 0, ipPoolExhausted := 0 }

/-- The registry state: the two indexes (by id and by subdomain), the
address pool, and the metrics counters the registry mutates. -/
structure Registry where
  tunnels : List (String × Info)
  bySubdomain : List (String × Info)
  pool : IPPool
  metrics : Metrics
deriving DecidableEq

/-- The per-call outputs of the registry's collaborators: the fresh UUID,
the key pair (`none` when the key generator's randomness source fails,
the only way `WireGuardKeyGenerator.Generate` can fail), the generated
subdomain, the current instant and the configured TTL. -/
structure GenInputs where
  newId : String
  keys : Option (String × String)
  name : String
  now : Nat
  ttl : Nat
deriving DecidableEq

inductive CreateErr where
  | ipExhausted
  | keyGenFailed
deriving DecidableEq

inductive CreateRes where
  | ok (t : Info)
  | err (e : CreateErr)
deriving DecidableEq

def CreateRes.isOk : CreateRes → Bool
  | .ok _ => true
  | .err _ => false

/-- `Registry.CreateTunnel` (registry.go lines 71-120): allocate an IP
(on failure, bump the exhausted counter and return the error); generate
keys (on failure, release the IP — discarding any release error — and
return); generate a subdomain with no collision check; build the record
and insert it into both indexes, overwriting any existing binding. -/
def createTunnel (r : Registry) (port : Nat) (g : GenInputs) :
    CreateRes × Registry :=
  match r.pool.allocate with
  | none =>
    (.err .ipExhausted,
     { r with metrics := { r.metrics with ipPoolExhausted := r.metrics.ipPoolExhausted + 1 } })
  | some (ip, pool1) =>
    match g.keys with
    | none => (.err .keyGenFailed, { r with pool := pool1.releaseD ip })
    | some (priv, pub) =>
      let t : Info :=
        { id := g.newId, subdomain := g.name, port := port,
          publicKey := pub, privateKey := priv, allowedIP := ip,
          createdAt := g.now, expiresAt := g.now + g.ttl, lastSeen := g.now,
          bytesIn := 0, bytesOut := 0 }
      (.ok t,
       { r with
         pool := pool1,
         tunnels := mapInsert t.id t r.tunnels,
         bySubdomain := mapInsert t.subdomain t r.bySubdomain,
         metrics := { r.metrics with
                      tunnelsCreated := r.metrics.tunnelsCreated + 1,
                      tunnelsActive := r.metrics.tunnelsActive + 1 } })

/-- `Registry.deleteTunnelLocked` (registry.go lines 160-177): release
the record's IP (a failure is only logged), drop both index entries, and
update the counters.  It always reports success. -/
def deleteTunnelLocked (r : Registry) (t : Info) : Registry :=
  { r with
    pool := r.pool.releaseD t.allowedIP,
    tunnels := mapErase t.id r.tunnels,
    bySubdomain := mapErase t.subdomain r.bySubdomain,
    metrics := { r.metrics with
                 tunnelsDeleted := r.metrics.tunnelsDeleted + 1,
                 tunnelsActive := r.metrics.tunnelsActive - 1 } }

/-- `Registry.DeleteTunnel` (registry.go lines 147-157): the Boolean is
`false` exactly on the `tunnel not found` error, in which case the state
is returned untouched. -/
def deleteTunnel (r : Registry) (id : String) : Bool × Registry :=
  match mapLookup id r.tunnels with
  | none => (false, r)
  | some t => (true, deleteTunnelLocked r t)

/-- One reaper removal (the loop body of `cleanupExpired`, registry.go
lines 219-225): `deleteTunnelLocked` never fails, so
`tunnels_expired_total` is bumped for every removed record. -/
def reapStep (acc : Registry) (e : String × Info) : Registry :=
  let acc1 := deleteTunnelLocked acc e.2
  { acc1 with metrics := { acc1.metrics with
                           tunnelsExpired := acc1.metrics.tunnelsExpired + 1 } }

/-- `Registry.cleanupExpired` (registry.go lines 207-230): collect the
expired records, then remove each through `deleteTunnelLocked`. -/
def cleanupExpired (r : Registry) (now : Nat) : Registry :=
  (r.tunnels.filter (fun e => e.2.isExpired now)).foldl reapStep r

/-! ## Admin API responses and handlers (internal/api/handlers.go) -/

/-- The server configuration fields the handlers read. -/
structure SrvCfg where
  domain : String
  wireGuardEndpoint : String
deriving DecidableEq

/-- `TunnelResponse` (handlers.go lines 23-31).  The Go struct renders
`TTL` with `Duration.String()`; the model keeps the signed duration value
`expires_at - now` itself. -/
structure TunnelResponse where
  id : String
  subdomain : String
  url : String
  port : Nat
  createdAt : Nat
  expiresAt : Nat
  ttl : Int
deriving DecidableEq

/-- The response body the handlers build from a record (handlers.go
lines 85-93, 109-117, 154-162). -/
def tunnelResponseOf (cfg : SrvCfg) (now : Nat) (t : Info) : TunnelResponse :=
  { id := t.id, subdomain := t.subdomain,
    url := "https://" ++ t.subdomain ++ "." ++ cfg.domain,
    port := t.port, createdAt := t.createdAt, expiresAt := t.expiresAt,
    ttl := (t.expiresAt : Int) - (now : Int) }

/-- `handleGetTunnel` (handlers.go lines 99-120) at the response level:
`none` is the 404 `TUNNEL_NOT_FOUND` branch. -/
def getTunnelResp (cfg : SrvCfg) (now : Nat) (r : Registry) (id : String) :
    Option TunnelResponse :=
  (mapLookup id r.tunnels).map (tunnelResponseOf cfg now)

/-- `handleListTunnels` (handlers.go lines 149-169): the response list
and the `count` field. -/
def listTunnelsResp (cfg : SrvCfg) (now : Nat) (r : Registry) :
    List TunnelResponse × Nat :=
  (r.tunnels.map (fun e => tunnelResponseOf cfg now e.2), r.tunnels.length)

/-- The WireGuard device's peer table, public key to allowed /32. -/
abbrev Peers := List (String × Nat)

/-- `Tunnel.AddPeer` (tunnel.go): `ok` stands for the two failure sources
(bad base64 in the key, IPC error); on failure the table is unchanged. -/
def addPeer (peers : Peers) (ok : Bool) (pub : String) (ip : Nat) : Option Peers :=
  if ok then some (mapInsert pub ip peers) else none

/-- Outcome of `handleCreateTunnel` / `handleProvisionSimple`. -/
inductive HRes where
  | created (resp : TunnelResponse)
  | badRequest (code : String)
  | internalErr (code : String)
deriving DecidableEq

def HRes.isErr : HRes → Bool
  | .created _ => false
  | _ => true

/-- `handleCreateTunnel` (handlers.go lines 60-96): validate the port,
call `CreateTunnel`, add the peer, and on peer failure roll back with
`DeleteTunnel` (whose own result is discarded).  `handleProvisionSimple`
(lines 172-229) runs the same state transitions with a text body. -/
def handleCreateTunnel (cfg : SrvCfg) (r : Registry) (peers : Peers)
    (port : Nat) (g : GenInputs) (peerAddOk : Bool) :
    HRes × Registry × Peers :=
  if port = 0 ∨ port > 65535 then (.badRequest "INVALID_PORT", r, peers)
  else
    match createTunnel r port g with
    | (.err _, r1) => (.internalErr "TUNNEL_CREATE_FAILED", r1, peers)
    | (.ok t, r1) =>
      match addPeer peers peerAddOk t.publicKey t.allowedIP with
      | none => (.internalErr "PEER_ADD_FAILED", (deleteTunnel r1 t.id).2, peers)
      | some peers1 => (.created (tunnelResponseOf cfg g.now t), r1, peers1)

/-- `generateWireGuardConfig` (handlers.go lines 233-255), character for
character; note the hard-coded `AllowedIPs = 10.100.0.1/32` line. -/
def generateWireGuardConfig (cfg : SrvCfg) (serverPub : String) (t : Info) : String :=
  "[Interface]\nAddress = " ++ natToIPString t.allowedIP ++ "/32\nPrivateKey = " ++
    t.privateKey ++
    "\nPostUp = echo \"🐍 Arbok tunnel active! Local port " ++ toString t.port ++
    " → https://" ++ t.subdomain ++ "." ++ cfg.domain ++
    "\"\n\n[Peer]\nPublicKey = " ++ serverPub ++
    "\nAllowedIPs = 10.100.0.1/32\nEndpoint = " ++ cfg.wireGuardEndpoint ++
    "\nPersistentKeepalive = 25"

/-- The text body of `handleProvisionSimple` (handlers.go lines 200-224).
The RFC3339 renderings of the two instants and the rounded TTL are taken
as inputs (time formatting is outside the modelled core). -/
def provisionBody (cfg : SrvCfg) (serverPub : String) (t : Info)
    (genTime expTime inDur : String) : String :=
  "# Arbok Tunnel Configuration\n# Generated: " ++ genTime ++ "\n# Expires: " ++
    expTime ++ " (in " ++ inDur ++ ")\n#\n# Your local service on port " ++
    toString t.port ++ " is now accessible at:\n# https://" ++ t.subdomain ++ "." ++
    cfg.domain ++ "\n#\n# Usage:\n#   1. Save this config: curl " ++ cfg.domain ++
    "/" ++ toString t.port ++
    " > wg.conf\n#   2. Start tunnel: sudo wg-quick up ./wg.conf  \n#   3. Stop tunnel: sudo wg-quick down ./wg.conf\n#\n" ++
    generateWireGuardConfig cfg serverPub t

/-- The `Content-Disposition` value of `handleProvisionSimple`
(handlers.go line 227). -/
def provisionContentDisposition (t : Info) : String :=
  "attachment; filename=\"" ++ t.subdomain ++ ".conf\""

/-- Is `pat` a leading segment of the second list? -/
def startsWithL : List Char → List Char → Bool
  | [], _ => true
  | _ :: _, [] => false
  | a :: as, b :: bs => a == b && startsWithL as bs

/-- Does `pat` occur contiguously in the second list? -/
def containsL (pat : List Char) : List Char → Bool
  | [] => startsWithL pat []
  | c :: rest => startsWithL pat (c :: rest) || containsL pat rest

/-- Substring occurrence on strings. -/
def strContains (s pat : String) : Bool := containsL pat.data s.data

/-! ## The reverse-proxy Director (internal/api/proxy.go lines 45-64) -/

/-- The request fields the Director touches. -/
structure PReq where
  host : String
  remoteAddr : String
  urlScheme : String
  urlHost : String
  headers : List (String × List String)
deriving DecidableEq

def headerSet (h : List (String × List String)) (k v : String) :
    List (String × List String) :=
  mapInsert k [v] h

def headerDel (h : List (String × List String)) (k : String) :
    List (String × List String) :=
  mapErase k h

def headerGet (h : List (String × List String)) (k : String) :
    Option (List String) :=
  mapLookup k h

/-- The hop-by-hop header list (proxy.go lines 267-277). -/
def hopHeaders : List String :=
  ["Connection", "Proxy-Connection", "Keep-Alive", "Proxy-Authenticate",
   "Proxy-Authorization", "Te", "Trailer", "Transfer-Encoding", "Upgrade"]

/-- `strings.Join(l, ", ")`. -/
def joinComma : List String → String
  | [] => ""
  | [x] => x
  | x :: y :: xs => x ++ ", " ++ joinComma (y :: xs)

/-- Model of `net.SplitHostPort` for the bracket-free `host:port` form a
TCP `RemoteAddr` takes: exactly one colon splits host from port. -/
def splitHostPort (s : String) : Option (String × String) :=
  match splitOnChar ':' s.data with
  | [h, p] => some (⟨h⟩, ⟨p⟩)
  | _ => none

/-- The `Director` closure (proxy.go lines 45-64), statement for
statement.  `req.Host` is assigned the upstream target *before* the
`X-Forwarded-Host` header is set from `req.Host`. -/
def director (targetHost : String) (req : PReq) : PReq :=
  let r1 : PReq := { req with urlScheme := "http", urlHost := targetHost,
                              host := targetHost }
  let r2 : PReq :=
    match splitHostPort r1.remoteAddr with
    | none => r1
    | some (clientIP, _) =>
      let v : String :=
        match headerGet r1.headers "X-Forwarded-For" with
        | some prior => joinComma prior ++ ", " ++ clientIP
        | none => clientIP
      { r1 with headers := headerSet r1.headers "X-Forwarded-For" v }
  let r3 : PReq := { r2 with headers := headerSet r2.headers "X-Forwarded-Host" r2.host }
  let r4 : PReq := { r3 with headers := headerSet r3.headers "X-Forwarded-Proto" "https" }
  { r4 with headers := hopHeaders.foldl (fun h hh => headerDel h hh) r4.headers }

/-! ## The authentication gate (internal/auth/auth.go) -/

/-- The request fields the authenticator reads; a missing header or
query parameter is the empty string, as Go's `Header.Get` and
`Values.Get` return. -/
structure AReq where
  path : String
  xApiKey : String
  authorization : String
  queryApiKey : String
deriving DecidableEq

/-- `auth.New` (auth.go lines 34-46): the configured key set, dropping
empty strings (the association into a Go map only affects duplicates,
not membership or emptiness). -/
def authKeys (apiKeys : List String) : List String :=
  apiKeys.filter (fun k => k ≠ "")

/-- `extractAPIKey` (auth.go lines 86-101): `X-API-Key` first, then a
`Bearer `-shaped `Authorization` header (`TrimPrefix` drops its 7
characters), then the `api_key` query parameter. -/
def extractAPIKey (r : AReq) : String :=
  if r.xApiKey ≠ "" then r.xApiKey
  else if r.authorization ≠ "" ∧ startsWithL "Bearer ".data r.authorization.data then
    ⟨r.authorization.data.drop 7⟩
  else r.queryApiKey

inductive AuthResult where
  | allowed
  | unauthorized (status : Nat) (body : String)
deriving DecidableEq

/-- `Authenticator.Middleware` (auth.go lines 49-83): health and metrics
paths skip the check, an empty key set is open mode, and otherwise the
extracted key must equal a configured key (`isValidKey` compares with
`subtle.ConstantTimeCompare`, equality on strings). -/
def middlewareAuth (apiKeys : List String) (r : AReq) : AuthResult :=
  if r.path = "/health" ∨ r.path = "/metrics" then .allowed
  else if authKeys apiKeys = [] then .allowed
  else
    let k := extractAPIKey r
    if k = "" then .unauthorized 401 "Missing API key"
    else if k ∈ authKeys apiKeys then .allowed
    else .unauthorized 401 "Invalid API key"

/-- Replace the private key of the record with id `tid` (both indexes),
leaving every other field and record alone. -/
def updPK (tid k : String) (e : String × Info) : String × Info :=
  if e.2.id = tid then (e.1, { e.2 with privateKey := k }) else e

/-- Two registry states differing only in one record's private key. -/
def setPrivateKey (r : Registry) (tid k : String) : Registry :=
  { r with tunnels := r.tunnels.map (updPK tid k),
           bySubdomain := r.bySubdomain.map (updPK tid k) }

/-! ## Supporting lemmas -/

/-- The candidate addresses `Allocate` can ever return: the network
address with its final octet set to 2 through 255 — 254 values. -/
def candidateIPs (network : Nat) : List Nat :=
  (List.range' 2 254).map (setLastOctet network)

theorem allocFind_mem_free (p : IPPool) :
    ∀ (l : List Nat) (ip : Nat), allocFind p l = some ip →
      ip ∈ l.map (setLastOctet p.network) ∧ ip ∉ p.allocated := by
  intro l
  induction l with
  | nil => intro ip h; exact absurd h (by simp [allocFind])
  | cons i rest ih =>
    intro ip h
    unfold allocFind at h
    by_cases hc : cidrContains p.network p.maskBits (setLastOctet p.network i)
    · rw [if_neg (by simpa using hc)] at h
      by_cases hm : setLastOctet p.network i ∈ p.allocated
      · rw [if_pos hm] at h
        obtain ⟨h1, h2⟩ := ih ip h
        exact ⟨by simp [List.map_cons, h1], h2⟩
      · rw [if_neg hm] at h
        obtain rfl := Option.some.inj h
        exact ⟨by simp, hm⟩
    · rw [if_pos (by simpa using hc)] at h
      exact absurd h (by simp)

theorem allocFind_none_of_allocated (p : IPPool) :
    ∀ l : List Nat, (∀ i ∈ l, setLastOctet p.network i ∈ p.allocated) →
      allocFind p l = none := by
  intro l
  induction l with
  | nil => intro _; rfl
  | cons i rest ih =>
    intro h
    unfold allocFind
    by_cases hc : cidrContains p.network p.maskBits (setLastOctet p.network i)
    · rw [if_neg (by simpa using hc),
          if_pos (h i (by simp)), ih (fun j hj => h j (by simp [hj]))]
    · rw [if_pos (by simpa using hc)]

theorem allocate_spec (p : IPPool) (ip : Nat) (p' : IPPool)
    (h : p.allocate = some (ip, p')) :
    p.available ≠ 0 ∧ ip ∉ p.allocated ∧
      p' = { p with allocated := ip :: p.allocated,
                    available := p.available - 1 } ∧
      ip ∈ candidateIPs p.network := by
  unfold IPPool.allocate at h
  by_cases hav : p.available = 0
  · rw [if_pos hav] at h; exact absurd h (by simp)
  · rw [if_neg hav] at h
    cases hfind : allocFind p (List.range' 2 254) with
    | none => rw [hfind] at h; exact absurd h (by simp)
    | some ip0 =>
      rw [hfind] at h
      obtain ⟨h1, h2⟩ := Prod.mk.injEq .. ▸ Option.some.inj h
      obtain ⟨hm, hfree⟩ := allocFind_mem_free p _ ip0 hfind
      subst h1
      exact ⟨hav, hfree, h2.symm, hm⟩

theorem releaseD_alloc_cancel (p : IPPool) (ip : Nat)
    (hfree : ip ∉ p.allocated) (hav : p.available ≠ 0) :
    IPPool.releaseD
      { p with allocated := ip :: p.allocated, available := p.available - 1 } ip
      = p := by
  unfold IPPool.releaseD IPPool.release
  rw [if_pos (by simp)]
  have hfilter : (ip :: p.allocated).filter (fun x => x ≠ ip) = p.allocated := by
    rw [List.filter_cons]
    rw [if_neg (by simp)]
    exact List.filter_eq_self.mpr (fun x hx => by
      simp [show x ≠ ip from fun hx2 => hfree (hx2 ▸ hx)])
  have havail : p.available - 1 + 1 = p.available :=
    Nat.sub_add_cancel (Nat.one_le_iff_ne_zero.mpr hav)
  simp only [Option.getD_some]
  cases p
  simp_all

theorem reapStep_tunnels (acc : Registry) (e : String × Info) :
    (reapStep acc e).tunnels = mapErase e.2.id acc.tunnels := rfl

theorem reapStep_expired_count (acc : Registry) (e : String × Info) :
    (reapStep acc e).metrics.tunnelsExpired = acc.metrics.tunnelsExpired + 1 := rfl

theorem foldl_reap_expired_count :
    ∀ (L : List (String × Info)) (acc : Registry),
      (L.foldl reapStep acc).metrics.tunnelsExpired =
        acc.metrics.tunnelsExpired + L.length := by
  intro L
  induction L with
  | nil => intro acc; simp
  | cons e L ih =>
    intro acc
    rw [List.foldl_cons, ih, reapStep_expired_count, List.length_cons]
    omega

theorem foldl_reap_subset :
    ∀ (L : List (String × Info)) (acc : Registry) (e : String × Info),
      e ∈ (L.foldl reapStep acc).tunnels → e ∈ acc.tunnels := by
  intro L
  induction L with
  | nil => intro acc e h; simpa using h
  | cons a L ih =>
    intro acc e h
    rw [List.foldl_cons] at h
    have h1 := ih (reapStep acc a) e h
    rw [reapStep_tunnels] at h1
    exact mem_of_mem_mapErase h1

theorem foldl_reap_removed :
    ∀ (L : List (String × Info)) (acc : Registry),
      (∀ a ∈ L, a.1 = a.2.id) →
      ∀ a ∈ L, ∀ e ∈ (L.foldl reapStep acc).tunnels, e.1 ≠ a.1 := by
  intro L
  induction L with
  | nil => intro acc _ a ha; exact absurd ha (by simp)
  | cons b L ih =>
    intro acc hk a ha e he
    rw [List.foldl_cons] at he
    rcases List.mem_cons.mp ha with rfl | haL
    · have h1 := foldl_reap_subset L (reapStep acc a) e he
      rw [reapStep_tunnels] at h1
      rw [hk a (by simp)]
      exact fst_ne_of_mem_mapErase h1
    · exact ih (reapStep acc b) (fun x hx => hk x (by simp [hx])) a haL e he

/-! ## Concrete fixtures -/

/-- The pool freshly built from CIDR `10.100.0.0/24`. -/
def pool24 : IPPool :=
  { network := octetsToNat 10 100 0 0, maskBits := 24,
    allocated := [], available := 253 }

/-- A registry freshly built over `10.100.0.0/24` (`NewRegistry` with an
empty tunnel table). -/
def reg0 : Registry :=
  { tunnels := [], bySubdomain := [], pool := pool24, metrics := Metrics.init }

def genA : GenInputs :=
  { newId := "id-a", keys := some ("privA", "pubA"),
    name := "happy-cloud-1234", now := 0, ttl := 86400 }

def genB : GenInputs :=
  { newId := "id-b", keys := some ("privB", "pubB"),
    name := "happy-cloud-1234", now := 5, ttl := 86400 }

/-- The record the first create on `reg0` with inputs `genA` builds. -/
def tA : Info :=
  { id := "id-a", subdomain := "happy-cloud-1234", port := 3000,
    publicKey := "pubA", privateKey := "privA",
    allowedIP := octetsToNat 10 100 0 2,
    createdAt := 0, expiresAt := 86400, lastSeen := 0,
    bytesIn := 0, bytesOut := 0 }

/-- The registry after that first create. -/
def regA : Registry :=
  { tunnels := [("id-a", tA)], bySubdomain := [("happy-cloud-1234", tA)],
    pool := { network := octetsToNat 10 100 0 0, maskBits := 24,
              allocated := [octetsToNat 10 100 0 2], available := 252 },
    metrics := { Metrics.init with tunnelsCreated := 1, tunnelsActive := 1 } }


/-- An expired record (for the reaper fixtures). -/
def tExp : Info :=
  { id := "id-e", subdomain := "old-star-0001", port := 80,
    publicKey := "pkE", privateKey := "skE",
    allowedIP := octetsToNat 10 100 0 3,
    createdAt := 0, expiresAt := 50, lastSeen := 0,
    bytesIn := 0, bytesOut := 0 }

/-- A still-live record (for the reaper fixtures). -/
def tLive : Info :=
  { id := "id-l", subdomain := "calm-wave-0002", port := 81,
    publicKey := "pkL", privateKey := "skL",
    allowedIP := octetsToNat 10 100 0 4,
    createdAt := 0, expiresAt := 200, lastSeen := 0,
    bytesIn := 0, bytesOut := 0 }

/-- A registry holding one expired and one live record. -/
def regReap : Registry :=
  { tunnels := [("id-e", tExp), ("id-l", tLive)],
    bySubdomain := [("old-star-0001", tExp), ("calm-wave-0002", tLive)],
    pool := { network := octetsToNat 10 100 0 0, maskBits := 24,
              allocated := [octetsToNat 10 100 0 3, octetsToNat 10 100 0 4],
              available := 251 },
    metrics := Metrics.init }

/-- A record whose `expires_at` equals the observation instant. -/
def tBoundary : Info :=
  { id := "id-x", subdomain := "cool-rain-0003", port := 80,
    publicKey := "pkX", privateKey := "skX",
    allowedIP := octetsToNat 10 100 0 5,
    createdAt := 0, expiresAt := 100, lastSeen := 0,
    bytesIn := 0, bytesOut := 0 }

def regBoundary : Registry :=
  { tunnels := [("id-x", tBoundary)],
    bySubdomain := [("cool-rain-0003", tBoundary)],
    pool := { network := octetsToNat 10 100 0 0, maskBits := 24,
              allocated := [octetsToNat 10 100 0 5], available := 252 },
    metrics := Metrics.init }

/-- A `/16` pool in which all 254 final-octet candidates are taken, yet
65279 addresses are still counted available. -/
def pool16full : IPPool :=
  { network := octetsToNat 10 5 0 0, maskBits := 16,
    allocated := candidateIPs (octetsToNat 10 5 0 0), available := 65279 }

def cfgC4 : SrvCfg := { domain := "example.com", wireGuardEndpoint := "example.com:54321" }

/-- The pool freshly built from CIDR `10.200.0.0/24`. -/
def pool200 : IPPool :=
  { network := octetsToNat 10 200 0 0, maskBits := 24,
    allocated := [], available := 253 }

/-- The record the first provision under CIDR `10.200.0.0/24` creates:
its overlay IP is the first allocation, `10.200.0.2`. -/
def tC4 : Info :=
  { id := "id-c4", subdomain := "happy-cloud-1234", port := 3000,
    publicKey := "CLIENTPUB", privateKey := "CLIENTPRIV",
    allowedIP := octetsToNat 10 200 0 2,
    createdAt := 0, expiresAt := 3600, lastSeen := 0,
    bytesIn := 0, bytesOut := 0 }

/-- A proxied request: original host `happy-cloud-1234.example.com`,
client `203.0.113.7`, one prior `X-Forwarded-For` hop, and two
hop-by-hop headers. -/
def reqC5 : PReq :=
  { host := "happy-cloud-1234.example.com",
    remoteAddr := "203.0.113.7:52100",
    urlScheme := "https",
    urlHost := "happy-cloud-1234.example.com",
    headers := [("X-Forwarded-For", ["198.51.100.9"]),
                ("Connection", ["keep-alive"]),
                ("Upgrade", ["h2c"])] }

theorem updPK_fst (tid k : String) (e : String × Info) :
    (updPK tid k e).1 = e.1 := by
  unfold updPK; split <;> rfl

theorem updPK_resp (cfg : SrvCfg) (now : Nat) (tid k : String) (e : String × Info) :
    tunnelResponseOf cfg now (updPK tid k e).2 = tunnelResponseOf cfg now e.2 := by
  unfold updPK tunnelResponseOf; split <;> rfl

theorem lookup_map_updPK (cfg : SrvCfg) (now : Nat) (tid k i : String) :
    ∀ l : List (String × Info),
      (mapLookup i (l.map (updPK tid k))).map (tunnelResponseOf cfg now) =
        (mapLookup i l).map (tunnelResponseOf cfg now) := by
  intro l
  induction l with
  | nil => rfl
  | cons e l ih =>
    by_cases h : e.1 = i
    · rw [List.map_cons,
          show mapLookup i (updPK tid k e :: l.map (updPK tid k)) =
            some (updPK tid k e).2 by
              simp [mapLookup, List.find?_cons_of_pos, updPK_fst, h],
          show mapLookup i (e :: l) = some e.2 by
            simp [mapLookup, List.find?_cons_of_pos, h]]
      simp [updPK_resp]
    · rw [List.map_cons,
          show mapLookup i (updPK tid k e :: l.map (updPK tid k)) =
            mapLookup i (l.map (updPK tid k)) by
              simp [mapLookup, List.find?_cons_of_neg, updPK_fst, h],
          show mapLookup i (e :: l) = mapLookup i l by
            simp [mapLookup, List.find?_cons_of_neg, h]]
      exact ih

/-- Claim C1: the private key of a tunnel record is invisible to the
admin read API: two registry states that differ only in one record's
`private_key` produce identical `GET /api/tunnel/id` responses for every
id and identical `GET /api/tunnels` responses (`TunnelResponse` carries
no private-key field). -/
theorem c1_private_key_invisible_in_admin_api :
    ∀ (cfg : SrvCfg) (now : Nat) (r : Registry) (tid k i : String),
      getTunnelResp cfg now (setPrivateKey r tid k) i = getTunnelResp cfg now r i ∧
      listTunnelsResp cfg now (setPrivateKey r tid k) = listTunnelsResp cfg now r := by
  intro cfg now r tid k i
  constructor
  · exact lookup_map_updPK cfg now tid k i r.tunnels
  · unfold listTunnelsResp setPrivateKey
    refine Prod.ext ?_ (by simp)
    show (r.tunnels.map (updPK tid k)).map (fun e => tunnelResponseOf cfg now e.2) = _
    rw [List.map_map]
    exact List.map_congr_left (fun e _ => by
      simp only [Function.comp_apply]
      exact updPK_resp cfg now tid k e)

/-- The initial `available` counter `NewIPPool` computes for a `/n`
CIDR. -/
def poolInitAvailable (n : Nat) : Nat :=
  (if 2 ^ (32 - n) > 2 then 2 ^ (32 - n) - 2 else 2 ^ (32 - n)) - 1

/-- Claim C6 (amended): pool construction fails exactly when the CIDR is
malformed; a well-formed CIDR of any width constructs (in particular /31
and /32 do), with initial available count `(usable hosts) - 1` where
usable hosts excludes network and broadcast only when the block has more
than two addresses — /30 yields 1, /24 yields 253, /31 yields 1 and /32
yields 0. -/
theorem c6_pool_construction :
    (∀ s : String,
       (newIPPool s).isSome = (parseCIDR s).isSome ∧
       (newIPPool s).map (fun p => p.available) =
         (parseCIDR s).map (fun q => poolInitAvailable q.2)) ∧
    (newIPPool "10.100.0.0/30").map (fun p => p.available) = some 1 ∧
    (newIPPool "10.100.0.0/24").map (fun p => p.available) = some 253 ∧
    (newIPPool "10.0.0.0/31").map (fun p => p.available) = some 1 ∧
    (newIPPool "10.0.0.0/32").map (fun p => p.available) = some 0 ∧
    newIPPool "10.0.0/24" = none ∧
    newIPPool "300.1.2.3/24" = none ∧
    newIPPool "10.0.0.0/33" = none ∧
    newIPPool "not-a-cidr" = none := by
  refine ⟨?_, by decide, by decide, by decide, by decide,
          by decide, by decide, by decide, by decide⟩
  intro s
  cases h : parseCIDR s with
  | none => simp [newIPPool, h]
  | some q => simp [newIPPool, h, poolInitAvailable]

/-- Claim C6 counterexample: contrary to the claim, `/31` and `/32`
CIDRs do NOT fail to construct — `NewIPPool` checks only parseability,
not width. -/
theorem c6_narrow_cidrs_construct :
    (newIPPool "10.0.0.0/31").isSome = true ∧
    (newIPPool "10.0.0.0/32").isSome = true := by decide

/-- Claim C10: every address the allocator ever returns is the network
address with final octet set to some value in [2, 255] (hence at most
254 distinct addresses regardless of CIDR width); whenever every such
candidate is already allocated the allocator errors, even with a
positive available counter — exhibited by a full /16 pool with 65279
addresses still counted available. -/
theorem c10_allocator_bounded_to_final_octet :
    (∀ (p : IPPool) (ip : Nat) (p' : IPPool), p.allocate = some (ip, p') →
        ip ∈ candidateIPs p.network ∧
        ∃ i, 2 ≤ i ∧ i ≤ 255 ∧ ip = setLastOctet p.network i) ∧
    (∀ p : IPPool,
        (∀ i, 2 ≤ i → i ≤ 255 → setLastOctet p.network i ∈ p.allocated) →
        p.allocate = none) ∧
    pool16full.allocate = none ∧ pool16full.available = 65279 := by
  have hpart2 : ∀ p : IPPool,
      (∀ i, 2 ≤ i → i ≤ 255 → setLastOctet p.network i ∈ p.allocated) →
      p.allocate = none := by
    intro p h
    unfold IPPool.allocate
    by_cases hav : p.available = 0
    · rw [if_pos hav]
    · have hnone := allocFind_none_of_allocated p (List.range' 2 254)
        (fun i hi => by
          have hb := List.mem_range'_1.mp hi
          exact h i hb.1 (by omega))
      rw [if_neg hav, hnone]
  refine ⟨?_, hpart2, ?_, rfl⟩
  · intro p ip p' h
    obtain ⟨_, _, _, hm⟩ := allocate_spec p ip p' h
    refine ⟨hm, ?_⟩
    obtain ⟨i, hi, rfl⟩ := List.mem_map.mp hm
    have hb := List.mem_range'_1.mp hi
    exact ⟨i, hb.1, by omega, rfl⟩
  · apply hpart2
    intro i h1 h2
    show setLastOctet pool16full.network i ∈ candidateIPs (octetsToNat 10 5 0 0)
    exact List.mem_map.mpr ⟨i, List.mem_range'_1.mpr ⟨h1, by omega⟩, rfl⟩

/-- Witness for C10: the first allocation from the `10.100.0.0/24` pool
lands among the 254 final-octet candidates, and the saturated /16 pool
rejects allocation. -/
theorem c10_witness :
    octetsToNat 10 100 0 2 ∈ candidateIPs pool24.network ∧
    pool16full.allocate = none :=
  ⟨(c10_allocator_bounded_to_final_octet.1 pool24 (octetsToNat 10 100 0 2)
      regA.pool (by decide)).1,
   c10_allocator_bounded_to_final_octet.2.2.1⟩

theorem createTunnel_ok_spec (r : Registry) (port : Nat) (g : GenInputs)
    (t : Info) (r1 : Registry) (h : createTunnel r port g = (.ok t, r1)) :
    ∃ ip pool1 priv pub,
      r.pool.allocate = some (ip, pool1) ∧ g.keys = some (priv, pub) ∧
      t = { id := g.newId, subdomain := g.name, port := port,
            publicKey := pub, privateKey := priv, allowedIP := ip,
            createdAt := g.now, expiresAt := g.now + g.ttl, lastSeen := g.now,
            bytesIn := 0, bytesOut := 0 } ∧
      r1 = { r with
              pool := pool1,
              tunnels := mapInsert t.id t r.tunnels,
              bySubdomain := mapInsert t.subdomain t r.bySubdomain,
              metrics := { r.metrics with
                            tunnelsCreated := r.metrics.tunnelsCreated + 1,
                            tunnelsActive := r.metrics.tunnelsActive + 1 } } := by
  unfold createTunnel at h
  split at h
  next halloc => simp at h
  next ip pool1 halloc =>
    split at h
    next hkeys => simp at h
    next priv pub hkeys =>
      rw [Prod.mk.injEq] at h
      obtain ⟨h1, h2⟩ := h
      rw [CreateRes.ok.injEq] at h1
      subst h1
      exact ⟨ip, pool1, priv, pub, halloc, hkeys, rfl, h2.symm⟩

theorem createTunnel_err_spec (r : Registry) (port : Nat) (g : GenInputs)
    (e : CreateErr) (r1 : Registry) (h : createTunnel r port g = (.err e, r1)) :
    r1.pool = r.pool ∧ r1.tunnels = r.tunnels ∧ r1.bySubdomain = r.bySubdomain := by
  unfold createTunnel at h
  split at h
  next halloc =>
    rw [Prod.mk.injEq] at h
    obtain ⟨-, h2⟩ := h
    subst h2
    exact ⟨rfl, rfl, rfl⟩
  next ip pool1 halloc =>
    split at h
    next hkeys =>
      rw [Prod.mk.injEq] at h
      obtain ⟨-, h2⟩ := h
      subst h2
      obtain ⟨hav, hfree, hpool1, -⟩ := allocate_spec r.pool ip pool1 halloc
      refine ⟨?_, rfl, rfl⟩
      show pool1.releaseD ip = r.pool
      rw [hpool1]
      exact releaseD_alloc_cancel r.pool ip hfree hav
    next priv pub hkeys => simp at h

theorem mapErase_all {α β : Type} [DecidableEq α] (k : α) (m : List (α × β))
    (p : α × β → Bool) (h : m.all p = true) : (mapErase k m).all p = true := by
  rw [List.all_eq_true] at *
  exact fun e he => h e (mem_of_mem_mapErase he)

/-- Claim C7: on any registry state, a successful create followed by a
delete of the created id succeeds and restores the external state: the
pool (hence its availability) returns to its pre-create value, the
record's subdomain is gone from the subdomain index, and its id is gone
from the id index; deleting an id absent from the index reports the
not-found error and returns the state untouched. -/
theorem c7_create_delete_idempotent :
    ∀ (r : Registry) (port : Nat) (g : GenInputs) (t : Info) (r1 : Registry)
      (id0 : String),
      createTunnel r port g = (.ok t, r1) →
      mapLookup id0 r.tunnels = none →
      ((deleteTunnel r1 t.id).1 = true ∧
       (deleteTunnel r1 t.id).2.pool = r.pool ∧
       (deleteTunnel r1 t.id).2.pool.available = r.pool.available ∧
       mapLookup t.subdomain (deleteTunnel r1 t.id).2.bySubdomain = none ∧
       mapLookup t.id (deleteTunnel r1 t.id).2.tunnels = none ∧
       deleteTunnel r id0 = (false, r)) := by
  intro r port g t r1 id0 hc hid0
  obtain ⟨ip, pool1, priv, pub, halloc, hkeys, ht, hr1⟩ :=
    createTunnel_ok_spec r port g t r1 hc
  obtain ⟨hav, hfree, hpool1, -⟩ := allocate_spec r.pool ip pool1 halloc
  have hlook : mapLookup t.id r1.tunnels = some t := by
    rw [hr1]; exact mapLookup_insert_self t.id t r.tunnels
  have hdel : deleteTunnel r1 t.id = (true, deleteTunnelLocked r1 t) := by
    unfold deleteTunnel
    rw [hlook]
  have hpool : (deleteTunnelLocked r1 t).pool = r.pool := by
    unfold deleteTunnelLocked
    show r1.pool.releaseD t.allowedIP = r.pool
    rw [hr1]
    show pool1.releaseD t.allowedIP = r.pool
    rw [show t.allowedIP = ip by rw [ht], hpool1]
    exact releaseD_alloc_cancel r.pool ip hfree hav
  refine ⟨by rw [hdel], by rw [hdel]; exact hpool,
          by rw [hdel, hpool], ?_, ?_, ?_⟩
  · rw [hdel]
    show mapLookup t.subdomain (mapErase t.subdomain r1.bySubdomain) = none
    exact mapLookup_erase_self t.subdomain r1.bySubdomain
  · rw [hdel]
    show mapLookup t.id (mapErase t.id r1.tunnels) = none
    exact mapLookup_erase_self t.id r1.tunnels
  · unfold deleteTunnel
    rw [hid0]

/-- A key-generator failure input (the randomness source failed). -/
def genFail : GenInputs :=
  { newId := "id-f", keys := none, name := "calm-tree-0009", now := 0, ttl := 60 }

/-- Claim C2: tunnel creation is atomic end-to-end — whenever the
create handler returns an error (bad port, pool exhausted, key
generation failed, or peer addition failed), the pool is exactly its
pre-create value, neither index holds a record with the new id, and the
device peer table is unchanged. -/
theorem c2_create_atomic_on_failure :
    ∀ (cfg : SrvCfg) (r : Registry) (peers : Peers) (port : Nat)
      (g : GenInputs) (ok : Bool),
      r.tunnels.all (fun e => e.2.id ≠ g.newId) = true →
      r.bySubdomain.all (fun e => e.2.id ≠ g.newId) = true →
      (handleCreateTunnel cfg r peers port g ok).1.isErr = true →
      ((handleCreateTunnel cfg r peers port g ok).2.1.pool = r.pool ∧
       (handleCreateTunnel cfg r peers port g ok).2.1.tunnels.all
         (fun e => e.2.id ≠ g.newId) = true ∧
       (handleCreateTunnel cfg r peers port g ok).2.1.bySubdomain.all
         (fun e => e.2.id ≠ g.newId) = true ∧
       (handleCreateTunnel cfg r peers port g ok).2.2 = peers) := by
  intro cfg r peers port g ok h1 h2 herr
  unfold handleCreateTunnel at herr ⊢
  by_cases hport : port = 0 ∨ port > 65535
  · rw [if_pos hport]
    exact ⟨rfl, h1, h2, rfl⟩
  · rw [if_neg hport] at herr ⊢
    rcases hct : createTunnel r port g with ⟨res, r1⟩
    cases res with
    | err e =>
      obtain ⟨hp, ht, hb⟩ := createTunnel_err_spec r port g e r1 hct
      exact ⟨hp, ht ▸ h1, hb ▸ h2, rfl⟩
    | ok t =>
      obtain ⟨ip, pool1, priv, pub, halloc, hkeys, htdef, hr1⟩ :=
        createTunnel_ok_spec r port g t r1 hct
      obtain ⟨hav, hfree, hpool1, -⟩ := allocate_spec r.pool ip pool1 halloc
      cases ok with
      | true =>
        rw [hct] at herr
        simp [addPeer, HRes.isErr] at herr
      | false =>
        have hlook : mapLookup t.id r1.tunnels = some t := by
          rw [hr1]; exact mapLookup_insert_self t.id t r.tunnels
        have hdel : deleteTunnel r1 t.id = (true, deleteTunnelLocked r1 t) := by
          unfold deleteTunnel
          rw [hlook]
        refine ⟨?_, ?_, ?_, rfl⟩
        · show (deleteTunnel r1 t.id).2.pool = r.pool
          rw [hdel]
          show r1.pool.releaseD t.allowedIP = r.pool
          rw [hr1]
          show pool1.releaseD t.allowedIP = r.pool
          rw [show t.allowedIP = ip by rw [htdef], hpool1]
          exact releaseD_alloc_cancel r.pool ip hfree hav
        · show ((deleteTunnel r1 t.id).2.tunnels.all
            (fun e => e.2.id ≠ g.newId)) = true
          rw [hdel]
          show (mapErase t.id r1.tunnels).all (fun e => e.2.id ≠ g.newId) = true
          rw [hr1]
          show (mapErase t.id (mapInsert t.id t r.tunnels)).all
            (fun e => e.2.id ≠ g.newId) = true
          rw [mapErase_insert_cancel]
          exact mapErase_all t.id r.tunnels _ h1
        · show ((deleteTunnel r1 t.id).2.bySubdomain.all
            (fun e => e.2.id ≠ g.newId)) = true
          rw [hdel]
          show (mapErase t.subdomain r1.bySubdomain).all
            (fun e => e.2.id ≠ g.newId) = true
          rw [hr1]
          show (mapErase t.subdomain (mapInsert t.subdomain t r.bySubdomain)).all
            (fun e => e.2.id ≠ g.newId) = true
          rw [mapErase_insert_cancel]
          exact mapErase_all t.subdomain r.bySubdomain _ h2

/-- Witness for C7: create on the fresh `10.100.0.0/24` registry, then
delete the created id; and delete of an unknown id on the fresh
registry. -/
theorem c7_witness :
    (deleteTunnel regA tA.id).1 = true ∧
    (deleteTunnel regA tA.id).2.pool = reg0.pool ∧
    (deleteTunnel regA tA.id).2.pool.available = reg0.pool.available ∧
    mapLookup tA.subdomain (deleteTunnel regA tA.id).2.bySubdomain = none ∧
    mapLookup tA.id (deleteTunnel regA tA.id).2.tunnels = none ∧
    deleteTunnel reg0 "nope" = (false, reg0) :=
  c7_create_delete_idempotent reg0 3000 genA tA regA "nope" (by decide) (by decide)

/-- Witness for C2: the key-generator failure path on the fresh
registry leaves pool, indexes and peer table untouched. -/
theorem c2_witness :
    (handleCreateTunnel cfgC4 reg0 [] 3000 genFail true).2.1.pool = reg0.pool ∧
    (handleCreateTunnel cfgC4 reg0 [] 3000 genFail true).2.1.tunnels.all
      (fun e => e.2.id ≠ genFail.newId) = true ∧
    (handleCreateTunnel cfgC4 reg0 [] 3000 genFail true).2.1.bySubdomain.all
      (fun e => e.2.id ≠ genFail.newId) = true ∧
    (handleCreateTunnel cfgC4 reg0 [] 3000 genFail true).2.2 = [] :=
  c2_create_atomic_on_failure cfgC4 reg0 [] 3000 genFail true
    (by decide) (by decide) (by decide)

/-- Claim C8 (amended): a record is expired exactly when
`expires_at < now` — the boundary `expires_at = now` is NOT yet expired,
since `IsExpired` uses the strict `time.Now().After` — and a reaper tick
removes every expired record through the same `deleteTunnelLocked` path
as delete, incrementing `tunnels_expired_total` once per removed record;
hence a record with `expires_at ≤ now - cleanup_interval` is strictly
expired at the tick and no longer exists afterwards. -/
theorem c8_reaper_removes_expired :
    ∀ (r : Registry) (now : Nat),
      r.tunnels.all (fun e => e.1 = e.2.id) = true →
      ((cleanupExpired r now).tunnels.all (fun e => ! e.2.isExpired now) = true ∧
       (cleanupExpired r now).metrics.tunnelsExpired =
         r.metrics.tunnelsExpired +
           (r.tunnels.filter (fun e => e.2.isExpired now)).length) := by
  intro r now hkeys
  constructor
  · rw [List.all_eq_true]
    intro e he
    unfold cleanupExpired at he
    by_contra hexp
    have hexp2 : e.2.isExpired now = true := by
      cases hval : e.2.isExpired now with
      | true => rfl
      | false => exact absurd (by simp [hval]) hexp
    have hsub := foldl_reap_subset _ _ e he
    have hmemL : e ∈ r.tunnels.filter (fun x => x.2.isExpired now) :=
      List.mem_filter.mpr ⟨hsub, by simp [hexp2]⟩
    have hk : ∀ a ∈ r.tunnels.filter (fun x => x.2.isExpired now), a.1 = a.2.id := by
      intro a ha
      have := List.all_eq_true.mp hkeys a (List.mem_of_mem_filter ha)
      simpa using this
    exact foldl_reap_removed _ r hk e hmemL e he rfl
  · unfold cleanupExpired
    exact foldl_reap_expired_count _ r

/-- Claim C8 counterexample: a record whose `expires_at` equals the
current instant is not expired (`IsExpired` is strict), and it survives
the reaper tick at that instant with no counter increment — refuting the
claimed boundary case `expires_at ≤ now`. -/
theorem c8_boundary_not_expired :
    tBoundary.expiresAt = 100 ∧
    tBoundary.isExpired 100 = false ∧
    (cleanupExpired regBoundary 100).tunnels = [("id-x", tBoundary)] ∧
    (cleanupExpired regBoundary 100).metrics.tunnelsExpired = 0 := by decide

/-- Witness for C8: on a registry holding one expired and one live
record, the tick at instant 100 leaves no expired record and bumps the
counter by exactly one. -/
theorem c8_witness :
    (cleanupExpired regReap 100).tunnels.all (fun e => ! e.2.isExpired 100) = true ∧
    (cleanupExpired regReap 100).metrics.tunnelsExpired =
      regReap.metrics.tunnelsExpired +
        (regReap.tunnels.filter (fun e => e.2.isExpired 100)).length :=
  c8_reaper_removes_expired regReap 100 (by decide)

/-- Claim C9: on the authenticated `/api/*` surface (any path other than
the health and metrics bypasses), an empty configured key set permits
every request; otherwise the request is permitted exactly when the
presented key — taken from `X-API-Key` first, then a `Bearer`-shaped
`Authorization` header, then the `api_key` query parameter — equals a
configured key, and every rejection is a 401 (with one of two fixed
bodies, neither naming the extraction step); the response is a function
of the extracted key alone, so requests presenting the same key through
different steps are indistinguishable. -/
theorem c9_auth_gate :
    ∀ (apiKeys : List String) (r r' : AReq),
      r.path ≠ "/health" → r.path ≠ "/metrics" →
      r'.path ≠ "/health" → r'.path ≠ "/metrics" →
      ((middlewareAuth apiKeys r = .allowed ↔
          (authKeys apiKeys = [] ∨ extractAPIKey r ∈ authKeys apiKeys)) ∧
       (middlewareAuth apiKeys r = .allowed ∨
        middlewareAuth apiKeys r = .unauthorized 401 "Missing API key" ∨
        middlewareAuth apiKeys r = .unauthorized 401 "Invalid API key") ∧
       (r.xApiKey ≠ "" → extractAPIKey r = r.xApiKey) ∧
       (r.xApiKey = "" → r.authorization ≠ "" →
          startsWithL "Bearer ".data r.authorization.data = true →
          extractAPIKey r = String.mk (r.authorization.data.drop 7)) ∧
       (r.xApiKey = "" →
          (r.authorization = "" ∨
           startsWithL "Bearer ".data r.authorization.data = false) →
          extractAPIKey r = r.queryApiKey) ∧
       (extractAPIKey r' = extractAPIKey r →
          middlewareAuth apiKeys r' = middlewareAuth apiKeys r)) := by
  intro apiKeys r r' h1 h2 h1' h2'
  have hpath : ¬ (r.path = "/health" ∨ r.path = "/metrics") := by
    rintro (h | h)
    · exact h1 h
    · exact h2 h
  have hpath' : ¬ (r'.path = "/health" ∨ r'.path = "/metrics") := by
    rintro (h | h)
    · exact h1' h
    · exact h2' h
  have hne : ∀ x ∈ authKeys apiKeys, x ≠ "" := by
    intro x hx
    have := List.mem_filter.mp hx
    simpa using this.2
  refine ⟨?_, ?_, ?_, ?_, ?_, ?_⟩
  · unfold middlewareAuth
    rw [if_neg hpath]
    by_cases hk : authKeys apiKeys = []
    · rw [if_pos hk]
      simp [hk]
    · rw [if_neg hk]
      by_cases hke : extractAPIKey r = ""
      · rw [if_pos hke]
        constructor
        · intro habs
          exact absurd habs (by simp)
        · rintro (h | h)
          · exact absurd h hk
          · rw [hke] at h
            exact absurd rfl (hne _ h)
      · rw [if_neg hke]
        by_cases hmem : extractAPIKey r ∈ authKeys apiKeys
        · rw [if_pos hmem]
          simp [hmem]
        · rw [if_neg hmem]
          constructor
          · intro habs
            exact absurd habs (by simp)
          · rintro (h | h)
            · exact absurd h hk
            · exact absurd h hmem
  · unfold middlewareAuth
    rw [if_neg hpath]
    by_cases hk : authKeys apiKeys = []
    · rw [if_pos hk]
      exact Or.inl rfl
    · rw [if_neg hk]
      by_cases hke : extractAPIKey r = ""
      · rw [if_pos hke]
        exact Or.inr (Or.inl rfl)
      · rw [if_neg hke]
        by_cases hmem : extractAPIKey r ∈ authKeys apiKeys
        · rw [if_pos hmem]
          exact Or.inl rfl
        · rw [if_neg hmem]
          exact Or.inr (Or.inr rfl)
  · intro hx
    unfold extractAPIKey
    rw [if_pos hx]
  · intro hx ha hb
    unfold extractAPIKey
    rw [if_neg (by simp [hx]), if_pos ⟨ha, hb⟩]
  · intro hx hcase
    unfold extractAPIKey
    rw [if_neg (by simp [hx])]
    rcases hcase with hcase | hcase
    · rw [if_neg (by simp [hcase])]
    · rw [if_neg (by simp [hcase])]
  · intro hext
    unfold middlewareAuth
    rw [if_neg hpath, if_neg hpath', hext]

/-- An authenticated request presenting the key via `X-API-Key`. -/
def reqAuthHeader : AReq :=
  { path := "/api/tunnels", xApiKey := "abc", authorization := "", queryApiKey := "" }

/-- The same key presented via the `api_key` query parameter. -/
def reqAuthQuery : AReq :=
  { path := "/api/tunnel/123", xApiKey := "", authorization := "", queryApiKey := "abc" }

/-- Witness for C9: key set `abc`, one request carrying the key in
`X-API-Key` and one in the query parameter. -/
theorem c9_witness :
    ((middlewareAuth ["abc"] reqAuthHeader = .allowed ↔
        (authKeys ["abc"] = [] ∨ extractAPIKey reqAuthHeader ∈ authKeys ["abc"])) ∧
     (middlewareAuth ["abc"] reqAuthHeader = .allowed ∨
      middlewareAuth ["abc"] reqAuthHeader = .unauthorized 401 "Missing API key" ∨
      middlewareAuth ["abc"] reqAuthHeader = .unauthorized 401 "Invalid API key") ∧
     (reqAuthHeader.xApiKey ≠ "" → extractAPIKey reqAuthHeader = reqAuthHeader.xApiKey) ∧
     (reqAuthHeader.xApiKey = "" → reqAuthHeader.authorization ≠ "" →
        startsWithL "Bearer ".data reqAuthHeader.authorization.data = true →
        extractAPIKey reqAuthHeader = String.mk (reqAuthHeader.authorization.data.drop 7)) ∧
     (reqAuthHeader.xApiKey = "" →
        (reqAuthHeader.authorization = "" ∨
         startsWithL "Bearer ".data reqAuthHeader.authorization.data = false) →
        extractAPIKey reqAuthHeader = reqAuthHeader.queryApiKey) ∧
     (extractAPIKey reqAuthQuery = extractAPIKey reqAuthHeader →
        middlewareAuth ["abc"] reqAuthQuery = middlewareAuth ["abc"] reqAuthHeader)) :=
  c9_auth_gate ["abc"] reqAuthHeader reqAuthQuery
    (by decide) (by decide) (by decide) (by decide)

/-- Claim C3 (code evaluation at the failing input): when the name
generator yields the same subdomain on two consecutive creates, the
second create does NOT retry or fail — both succeed, the id index holds
two live records with identical subdomains, and the subdomain index has
been silently overwritten to the second record.  `CreateTunnel` contains
no collision check, no retry and no `NameCollisionError`. -/
theorem c3_no_collision_retry :
    (createTunnel reg0 3000 genA).1 = .ok tA ∧
    ((createTunnel (createTunnel reg0 3000 genA).2 3000 genB).1).isOk = true ∧
    (mapLookup "id-a"
        (createTunnel (createTunnel reg0 3000 genA).2 3000 genB).2.tunnels).map
      (fun t => t.subdomain) = some "happy-cloud-1234" ∧
    (mapLookup "id-b"
        (createTunnel (createTunnel reg0 3000 genA).2 3000 genB).2.tunnels).map
      (fun t => t.subdomain) = some "happy-cloud-1234" ∧
    (mapLookup "happy-cloud-1234"
        (createTunnel (createTunnel reg0 3000 genA).2 3000 genB).2.bySubdomain).map
      (fun t => t.id) = some "id-b" := by decide

set_option maxRecDepth 100000 in
/-- Claim C4 (code evaluation at the failing input): under configured
CIDR `10.200.0.0/24` the first provision allocates `10.200.0.2` and the
returned body carries the claimed `Address`, `PrivateKey`, `Endpoint`,
`PersistentKeepalive` lines and `<subdomain>.conf` filename — but its
`AllowedIPs` line is the hard-coded `10.100.0.1/32`, not the configured
network's server address `10.200.0.1/32`. -/
theorem c4_hardcoded_allowed_ips :
    newIPPool "10.200.0.0/24" = some pool200 ∧
    pool200.allocate = some (octetsToNat 10 200 0 2,
      { pool200 with allocated := [octetsToNat 10 200 0 2], available := 252 }) ∧
    natToIPString (octetsToNat 10 200 0 2) = "10.200.0.2" ∧
    strContains (provisionBody cfgC4 "SRVPUB" tC4 "gen" "exp" "dur")
      "Address = 10.200.0.2/32" = true ∧
    strContains (provisionBody cfgC4 "SRVPUB" tC4 "gen" "exp" "dur")
      "PrivateKey = CLIENTPRIV" = true ∧
    strContains (provisionBody cfgC4 "SRVPUB" tC4 "gen" "exp" "dur")
      "Endpoint = example.com:54321" = true ∧
    strContains (provisionBody cfgC4 "SRVPUB" tC4 "gen" "exp" "dur")
      "PersistentKeepalive = 25" = true ∧
    provisionContentDisposition tC4 =
      "attachment; filename=\"happy-cloud-1234.conf\"" ∧
    strContains (provisionBody cfgC4 "SRVPUB" tC4 "gen" "exp" "dur")
      "AllowedIPs = 10.100.0.1/32" = true ∧
    strContains (provisionBody cfgC4 "SRVPUB" tC4 "gen" "exp" "dur")
      "AllowedIPs = 10.200.0.1/32" = false := by decide

/-- Claim C5 (code evaluation at the failing input): the Director
appends the client IP to the existing `X-Forwarded-For`, sets
`X-Forwarded-Proto: https` and strips the hop-by-hop headers — but
`X-Forwarded-Host` receives the rewritten upstream target
`10.100.0.2:3000`, not the original incoming host, because `req.Host` is
overwritten before the header is set from it. -/
theorem c5_director_forwarded_host :
    reqC5.host = "happy-cloud-1234.example.com" ∧
    (director "10.100.0.2:3000" reqC5).host = "10.100.0.2:3000" ∧
    headerGet (director "10.100.0.2:3000" reqC5).headers "X-Forwarded-Host" =
      some ["10.100.0.2:3000"] ∧
    headerGet (director "10.100.0.2:3000" reqC5).headers "X-Forwarded-Proto" =
      some ["https"] ∧
    headerGet (director "10.100.0.2:3000" reqC5).headers "X-Forwarded-For" =
      some ["198.51.100.9, 203.0.113.7"] ∧
    headerGet (director "10.100.0.2:3000" reqC5).headers "Connection" = none ∧
    headerGet (director "10.100.0.2:3000" reqC5).headers "Upgrade" = none := by decide

end Arbok
